import Mathlib

/-!
Verification development for the PlaneCaldav synchronization engine.

The definitions below are a shallow embedding of the Python sources:
  app/services/sync_service.py      (SyncService: mapper, caches, reconciliation)
  app/services/caldav_service.py    (CalDAVService: event CRUD with tenacity retries)
  app/services/plane_service.py     (PlaneService: tracker fetches, pure helpers)
  app/services/scheduler_service.py (SchedulerService: scheduled job, watermark)
  app/services/webhook_handler.py   (WebhookHandler: signature check, dispatch)

Conventions of the embedding:
  - Python datetimes are modelled by PyDateTime: an ordinal date plus a
    time-of-day component, ordered lexicographically exactly as Python orders
    naive datetimes.
  - Python dicts are modelled as association lists with dict semantics:
    setting an existing key replaces it in place, setting a new key appends
    (insertion order), deletion removes the key.
  - Remote collaborators are modelled by a read-only World of data and fault
    oracles; one service-level call either performs its documented effect or
    fails, as selected by the oracle.  The tenacity retry decorators are
    modelled separately (run_with_retry below) at the granularity the retry
    claims need; at the sync_service level a faulted call is a call whose
    retries were exhausted.
  - Python exceptions are Except values; because a raised exception does not
    roll mutated state back, every stateful operation returns the state it
    reached together with its Except outcome.
-/

/-! ## Dates and times (naive Python datetimes) -/

/-- Python naive datetime: ordinal day plus time-of-day (sub-day units).
Comparison is lexicographic, as in Python. -/
structure PyDateTime where
  day : Nat
  tod : Nat
deriving DecidableEq, Repr

/-- Python datetime strict comparison a < b. -/
def PyDateTime.ltb (a b : PyDateTime) : Bool :=
  a.day < b.day || (a.day == b.day && a.tod < b.tod)

/-- datetime.combine(d, datetime.min.time()): keep the date, drop the
time-of-day (sync_service.py lines 156-161). -/
def combineMinTime (d : PyDateTime) : PyDateTime := ⟨d.day, 0⟩

/-! ## Association lists with Python dict semantics -/

/-- dict lookup: first entry with the key. -/
def alLookup {α : Type} : List (String × α) → String → Option α
  | [], _ => none
  | (k', v') :: rest, k => if k' == k then some v' else alLookup rest k

/-- dict set: replace in place if present, else append (insertion order). -/
def alSet {α : Type} : List (String × α) → String → α → List (String × α)
  | [], k, v => [(k, v)]
  | (k', v') :: rest, k, v =>
    if k' == k then (k, v) :: rest else (k', v') :: alSet rest k v

/-- dict delete (no-op when the key is absent). -/
def alErase {α : Type} (m : List (String × α)) (k : String) : List (String × α) :=
  m.filter (fun p => !(p.1 == k))

/-- dict lookup with a default. -/
def alGetD {α : Type} (m : List (String × α)) (k : String) (d : α) : α :=
  (alLookup m k).getD d

/-! ## Data model (app/models/plane.py, app/models/caldav.py) -/

/-- PlaneLabel (plane.py): only the name is consumed by the mapper. -/
structure PlaneLabel where
  name : String
deriving DecidableEq, Repr

/-- PlaneUser (plane.py): display name and optional email. -/
structure PlaneUser where
  display_name : String
  email : Option String
deriving DecidableEq, Repr

/-- PlaneIssue (plane.py), restricted to the fields the sync engine reads. -/
structure PlaneIssue where
  id : String
  name : String
  description : Option String
  sequence_id : Nat
  start_date : Option PyDateTime
  target_date : Option PyDateTime
  completed_at : Option PyDateTime
  priority : Option String
  assignees : List PlaneUser
  labels : List PlaneLabel
  project_id : String
  updated_at : PyDateTime
deriving DecidableEq, Repr

/-- CalDAVEvent (caldav.py).  The source field named end is a Lean keyword and
is embedded as end_; the mapper always sets it, so it is not optional here. -/
structure CalDAVEvent where
  uid : String
  summary : String
  description : String
  start : PyDateTime
  end_ : PyDateTime
  all_day : Bool
  status : String
  categories : List String
  attendees : List String
  color : String
  url : String
deriving DecidableEq, Repr

/-- PlaneProject (plane.py), restricted to the fields read during mapping
initialization. -/
structure PlaneProject where
  id : String
  name : String
deriving DecidableEq, Repr

/-- CalDAVCalendar (caldav.py), restricted to name and url. -/
structure CalDAVCalendar where
  name : String
  url : String
deriving DecidableEq, Repr

/-- SyncMapping (caldav.py): project to calendar association. -/
structure SyncMapping where
  plane_project_id : String
  caldav_calendar_url : String
  last_sync : Option PyDateTime
  events_created : Nat
deriving DecidableEq, Repr

/-- EventMapping (caldav.py): issue to event association. -/
structure EventMapping where
  plane_issue_id : String
  caldav_event_uid : String
  caldav_calendar_url : String
  last_sync : PyDateTime
  plane_updated_at : PyDateTime
deriving DecidableEq, Repr

/-! ## Configuration constants (app/config.py)

The values are environment-supplied at runtime; the defaults and
representative values are fixed here.  No claim depends on their content. -/

/-- settings.app_name default (config.py line 37). -/
def app_name : String := "CalPlaneBot"

/-- settings.plane_base_url, representative value. -/
def plane_base_url : String := "https://plane.example"

/-- settings.plane_workspace_slug, representative value. -/
def workspace_slug : String := "workspace"

/-- Model of Python str.lower(), mapping each character to lower case
(adequate for the ASCII configuration and calendar names involved); written
over the character list so that it evaluates by kernel reduction. -/
def strLower (s : String) : String :=
  ⟨s.data.map Char.toLower⟩

/-! ## Pure helpers of PlaneService (plane_service.py) -/

/-- is_issue_completed (plane_service.py lines 174-177): completed_at set. -/
def is_issue_completed (issue : PlaneIssue) : Bool :=
  issue.completed_at.isSome

/-- get_issue_url (plane_service.py lines 206-208). -/
def get_issue_url (issue : PlaneIssue) : String :=
  plane_base_url ++ "/" ++ workspace_slug ++ "/projects/" ++ issue.project_id
    ++ "/issues/" ++ issue.id

/-- get_issue_priority_color (plane_service.py lines 210-219): dict get with
a default; a missing priority (None) also yields the default. -/
def get_issue_priority_color (issue : PlaneIssue) : String :=
  match issue.priority with
  | some "urgent" => "#FF3B30"
  | some "high" => "#FF9500"
  | some "medium" => "#007AFF"
  | some "low" => "#34C759"
  | _ => "#8E8E93"

/-- format_issue_description (plane_service.py lines 221-238).  Sections are
gated by Python truthiness: a missing or empty description and an empty
assignee or label list contribute nothing; the URL section is always last.
Present sections are joined by a blank line. -/
def format_issue_description (issue : PlaneIssue) : String :=
  let descPart :=
    match issue.description with
    | some d => if d.isEmpty then [] else ["Description: " ++ d]
    | none => []
  let assigneePart :=
    if issue.assignees.isEmpty then []
    else ["Assignees: " ++
      String.intercalate ", " (issue.assignees.map (fun a => a.display_name))]
  let labelPart :=
    if issue.labels.isEmpty then []
    else ["Labels: " ++ String.intercalate ", " (issue.labels.map (fun l => l.name))]
  let urlPart := ["URL: " ++ get_issue_url issue]
  String.intercalate "\n\n" (descPart ++ assigneePart ++ labelPart ++ urlPart)

/-! ## The item mapper (sync_service.py lines 138-204) -/

/-- The deterministic event identifier for an issue
(sync_service.py lines 148 and 222 and 288, webhook_handler.py line 109). -/
def issue_uid (issue_id : String) : String :=
  "plane-issue-" ++ issue_id ++ "@" ++ strLower app_name

/-- plane_issue_to_caldav_event (sync_service.py lines 138-204).
Returns none when target_date is unset (Python: a datetime is always truthy,
so the falsiness test is exactly a None test).  Otherwise builds the all-day
event: span start_date..target_date when start_date is set and strictly
precedes target_date, else a single day on target_date; both bounds are
date-only via datetime.combine with midnight.  Status, categories, attendees,
color, description and url follow the source lines 164-204, with Python
truthiness on priority, emails and the lists. -/
def plane_issue_to_caldav_event (issue : PlaneIssue) : Option CalDAVEvent :=
  match issue.target_date with
  | none => none
  | some target =>
    let uid := issue_uid issue.id
    let startEnd :=
      match issue.start_date with
      | some sd =>
        if PyDateTime.ltb sd target then
          (combineMinTime sd, combineMinTime target)
        else
          (combineMinTime target, combineMinTime target)
      | none => (combineMinTime target, combineMinTime target)
    let status := if is_issue_completed issue then "CANCELLED" else "CONFIRMED"
    let categories :=
      (if is_issue_completed issue then ["Completed"] else [])
      ++ issue.labels.map (fun l => l.name)
      ++ (match issue.priority with
          | some p => if p.isEmpty then [] else ["Priority: " ++ p]
          | none => [])
    let attendees :=
      issue.assignees.filterMap (fun a =>
        match a.email with
        | some e => if e.isEmpty then none else some e
        | none => none)
    some
      { uid := uid
        summary := "[" ++ toString issue.sequence_id ++ "] " ++ issue.name
        description := format_issue_description issue
        start := startEnd.1
        end_ := startEnd.2
        all_day := true
        status := status
        categories := categories
        attendees := attendees
        color := get_issue_priority_color issue
        url := get_issue_url issue }

/-! ## The external world: collaborator data and fault oracles

A World fixes what the remote collaborators would answer during one
execution: the tracker data, the failure pattern of every remote operation,
the url the calendar server assigns to a newly created calendar, and the
wall clock.  A service-level call that the oracle marks as failing is a call
whose bounded retries were exhausted (the retry mechanics themselves are
modelled in the run_with_retry section below). -/
structure World where
  projects : List PlaneProject
  issues : String → List PlaneIssue
  getProjectsFail : Bool
  getIssuesFail : String → Bool
  getCalendarsFail : Bool
  createCalendarFail : String → Bool
  newCalendarUrl : String → String
  getEventsFail : String → Bool
  createEventFail : String → String → Bool
  updateEventFail : String → String → Bool
  deleteEventFail : String → String → Bool
  now : PyDateTime
  defaultLookback : PyDateTime
  saveFail : Bool

/-- Events of one calendar, keyed by uid (the calendar server side is
modelled at the uid-keyed granularity the sync engine observes). -/
abbrev EvMap := List (String × CalDAVEvent)

/-- The mutable state threaded through the engine: the fields of the
SyncService instance (sync_service.py lines 35-45) together with the
calendar server content they act on. -/
structure Sys where
  project_mappings : List (String × SyncMapping)
  event_mappings : List (String × EventMapping)
  events_cache : List (String × EvMap)
  sync_in_progress : Bool
  server_events : List (String × EvMap)
  server_calendars : List CalDAVCalendar
deriving DecidableEq, Repr

/-- Raised exceptions visible at the sync_service level: CalDAVError
(caldav_service.py line 27) and PlaneAPIError (plane_service.py line 32). -/
inductive Err where
  | caldav (msg : String)
  | plane (msg : String)
deriving DecidableEq, Repr

/-- Outcome of an Except-producing computation, as a Bool. -/
def exOk {ε α : Type} : Except ε α → Bool
  | .ok _ => true
  | .error _ => false

/-! ## Service-level collaborator calls

Each definition gives the net effect of one decorated caldav_service or
plane_service method after its retry policy has run its course: either the
documented effect, or the wrapped error.  delete_event and update_event
raise a CalDAVError when no event with the uid exists
(caldav_service.py lines 458 and 368). -/

/-- get_projects (plane_service.py lines 77-93). -/
def svc_get_projects (w : World) : Except Err (List PlaneProject) :=
  if w.getProjectsFail then .error (.plane "API request failed")
  else .ok w.projects

/-- get_project_issues (plane_service.py lines 95-120). -/
def svc_get_project_issues (w : World) (project_id : String) :
    Except Err (List PlaneIssue) :=
  if w.getIssuesFail project_id then .error (.plane "API request failed")
  else .ok (w.issues project_id)

/-- get_calendars (caldav_service.py lines 103-162); the returned list is the
server's calendar list (already without the scheduling inbox, which the
source filters out and which is never a sync target). -/
def svc_get_calendars (w : World) (s : Sys) : Except Err (List CalDAVCalendar) :=
  if w.getCalendarsFail then .error (.caldav "Failed to get calendars")
  else .ok s.server_calendars

/-- create_calendar (caldav_service.py lines 164-191): the server assigns
the url of the new calendar. -/
def svc_create_calendar (w : World) (s : Sys) (name : String) :
    Except Err (CalDAVCalendar × Sys) :=
  if w.createCalendarFail name then .error (.caldav "Failed to create calendar")
  else
    let cal : CalDAVCalendar := ⟨name, w.newCalendarUrl name⟩
    .ok (cal, { s with server_calendars := s.server_calendars ++ [cal] })

/-- get_calendar_events (caldav_service.py lines 193-260), keyed by uid. -/
def svc_get_calendar_events (w : World) (s : Sys) (calendar_url : String) :
    Except Err EvMap :=
  if w.getEventsFail calendar_url then .error (.caldav "Failed to get events")
  else .ok (alGetD s.server_events calendar_url [])

/-- delete_event (caldav_service.py lines 426-462): removes the event, or
raises when no event with the uid exists. -/
def svc_delete_event (w : World) (s : Sys) (calendar_url event_uid : String) :
    Except Err Sys :=
  if w.deleteEventFail calendar_url event_uid then
    .error (.caldav "Failed to delete event")
  else
    let evs := alGetD s.server_events calendar_url []
    if (alLookup evs event_uid).isSome then
      .ok { s with
        server_events := alSet s.server_events calendar_url (alErase evs event_uid) }
    else .error (.caldav ("Event " ++ event_uid ++ " not found"))

/-- update_event (caldav_service.py lines 330-424): replaces the event, or
raises when no event with the uid exists. -/
def svc_update_event (w : World) (s : Sys) (calendar_url event_uid : String)
    (ev : CalDAVEvent) : Except Err Sys :=
  if w.updateEventFail calendar_url event_uid then
    .error (.caldav "Failed to update event")
  else
    let evs := alGetD s.server_events calendar_url []
    if (alLookup evs event_uid).isSome then
      .ok { s with
        server_events := alSet s.server_events calendar_url (alSet evs event_uid ev) }
    else .error (.caldav ("Event " ++ event_uid ++ " not found"))

/-- create_event (caldav_service.py lines 262-328): stores the event under
its uid. -/
def svc_create_event (w : World) (s : Sys) (calendar_url : String)
    (ev : CalDAVEvent) : Except Err Sys :=
  if w.createEventFail calendar_url ev.uid then
    .error (.caldav "Failed to create event")
  else
    .ok { s with
      server_events := alSet s.server_events calendar_url
        (alSet (alGetD s.server_events calendar_url []) ev.uid ev) }

/-! ## SyncService state operations (sync_service.py) -/

/-- get_calendar_for_project (sync_service.py lines 111-114). -/
def get_calendar_for_project (s : Sys) (project_id : String) : Option String :=
  (alLookup s.project_mappings project_id).map (fun m => m.caldav_calendar_url)

/-- The method named with a leading underscore in the source,
get_events_cache (sync_service.py lines 116-123): return the cached uid map
for a calendar, fetching and caching it on a miss. -/
def get_events_cache (w : World) (s : Sys) (calendar_url : String) :
    Except Err (EvMap × Sys) :=
  match alLookup s.events_cache calendar_url with
  | some m => .ok (m, s)
  | none =>
    match svc_get_calendar_events w s calendar_url with
    | .error e => .error e
    | .ok evs =>
      .ok (evs, { s with events_cache := alSet s.events_cache calendar_url evs })

/-- clear_events_cache (sync_service.py lines 125-128). -/
def clear_events_cache (s : Sys) : Sys :=
  { s with events_cache := [] }

/-- invalidate_event_in_cache (sync_service.py lines 130-136): overwrite or
remove one entry of a cached calendar; no-op when the calendar is not
cached. -/
def invalidate_event_in_cache (s : Sys) (calendar_url event_uid : String)
    (new_event : Option CalDAVEvent) : Sys :=
  match alLookup s.events_cache calendar_url with
  | none => s
  | some m =>
    match new_event with
    | some ev =>
      { s with events_cache := alSet s.events_cache calendar_url (alSet m event_uid ev) }
    | none =>
      { s with events_cache := alSet s.events_cache calendar_url (alErase m event_uid) }

/-- Recording of the EventMapping after a successful create or update
(sync_service.py lines 256-264). -/
def record_event_mapping (w : World) (issue : PlaneIssue) (ev : CalDAVEvent)
    (calendar_url : String) (s : Sys) : Sys :=
  { s with event_mappings := (alSet s.event_mappings issue.id
      ⟨issue.id, ev.uid, calendar_url, w.now, issue.updated_at⟩) }

/-- sync_issue_to_calendar (sync_service.py lines 206-268).
No event mapped: try to delete the event with the deterministic uid and
swallow any failure (lines 225-234).  Event mapped: locate the existing
event through the cache (use_cache) or a direct fetch, then update or
create, invalidating the cache entry after success; any failure here is
logged and re-raised (lines 266-268), with state mutated so far kept. -/
def sync_issue_to_calendar (w : World) (issue : PlaneIssue)
    (calendar_url : String) (use_cache : Bool) (s : Sys) :
    Except Err Unit × Sys :=
  let event := plane_issue_to_caldav_event issue
  let event_uid := issue_uid issue.id
  match event with
  | none =>
    match svc_delete_event w s calendar_url event_uid with
    | .ok s1 => (.ok (), invalidate_event_in_cache s1 calendar_url event_uid none)
    | .error _ => (.ok (), s)
  | some ev =>
    let lookupStep : Except Err (Option CalDAVEvent × Sys) :=
      if use_cache then
        match get_events_cache w s calendar_url with
        | .error e => .error e
        | .ok (m, s1) => .ok (alLookup m ev.uid, s1)
      else
        match svc_get_calendar_events w s calendar_url with
        | .error e => .error e
        | .ok evs => .ok (alLookup evs ev.uid, s)
    match lookupStep with
    | .error e => (.error e, s)
    | .ok (existing, s1) =>
      match existing with
      | some _ =>
        match svc_update_event w s1 calendar_url ev.uid ev with
        | .error e => (.error e, s1)
        | .ok s2 =>
          let s3 := invalidate_event_in_cache s2 calendar_url ev.uid (some ev)
          (.ok (), record_event_mapping w issue ev calendar_url s3)
      | none =>
        match svc_create_event w s1 calendar_url ev with
        | .error e => (.error e, s1)
        | .ok s2 =>
          let s3 := invalidate_event_in_cache s2 calendar_url ev.uid (some ev)
          (.ok (), record_event_mapping w issue ev calendar_url s3)

/-! ## Batch reconciliation (sync_service.py lines 270-452) -/

/-- Update of the project mapping after a batch
(sync_service.py lines 313-316): refresh last_sync and events_created when
the project has a mapping. -/
def update_project_mapping (w : World) (project_id : String) (issue_count : Nat)
    (s : Sys) : Sys :=
  match alLookup s.project_mappings project_id with
  | none => s
  | some m =>
    { s with project_mappings := (alSet s.project_mappings project_id
        { m with last_sync := some w.now, events_created := issue_count }) }

/-- The delete phase of a batch (sync_service.py lines 296-305 and 356-365):
delete every stale uid, count the successes, swallow and skip any per-uid
failure. -/
def delete_stale_events (w : World) (calendar_url : String) :
    List String → Sys → Nat × Sys
  | [], s => (0, s)
  | uid :: rest, s =>
    match svc_delete_event w s calendar_url uid with
    | .ok s1 =>
      let s2 := invalidate_event_in_cache s1 calendar_url uid none
      let r := delete_stale_events w calendar_url rest s2
      (r.1 + 1, r.2)
    | .error _ => delete_stale_events w calendar_url rest s

/-- The per-item sync phase of a batch (sync_service.py lines 307-311 and
367-371): sync every current issue through the cache; the loop body has no
per-item exception handler, so the first failing item aborts the loop and
the exception propagates. -/
def sync_issues_loop (w : World) (calendar_url : String) :
    List PlaneIssue → Sys → Except Err Nat × Sys
  | [], s => (.ok 0, s)
  | issue :: rest, s =>
    let step := sync_issue_to_calendar w issue calendar_url true s
    match step.1 with
    | .error e => (.error e, step.2)
    | .ok _ =>
      let rrest := sync_issues_loop w calendar_url rest step.2
      match rrest.1 with
      | .error e => (.error e, rrest.2)
      | .ok n => (.ok (n + 1), rrest.2)

/-- sync_project_issues_with_cleanup (sync_service.py lines 270-322): fetch
the project's issues, load the event cache, delete stale events
(failure-tolerant per uid), sync every issue (first failure propagates),
update the project mapping, and return (synced_count, deleted_count).
The stale set is the cached uids minus the current issue uids; the set
difference is embedded as a filter over the cached uids in cache order. -/
def sync_project_issues_with_cleanup (w : World) (project_id calendar_url : String)
    (s : Sys) : Except Err (Nat × Nat) × Sys :=
  match svc_get_project_issues w project_id with
  | .error e => (.error e, s)
  | .ok issues =>
    match get_events_cache w s calendar_url with
    | .error e => (.error e, s)
    | .ok (cache, s1) =>
      let current_uids := issues.map (fun i => issue_uid i.id)
      let events_to_delete :=
        (cache.map (fun p => p.1)).filter (fun u => !(current_uids.contains u))
      let dres := delete_stale_events w calendar_url events_to_delete s1
      let lres := sync_issues_loop w calendar_url issues dres.2
      match lres.1 with
      | .error e => (.error e, lres.2)
      | .ok synced_count =>
        (.ok (synced_count, dres.1),
         update_project_mapping w project_id issues.length lres.2)

/-- sync_project_issues (sync_service.py lines 324-382): the same batch, but
the calendar is resolved from the project mapping (missing or empty mapping:
log and return) and no counts are returned. -/
def sync_project_issues (w : World) (project_id : String) (s : Sys) :
    Except Err Unit × Sys :=
  match get_calendar_for_project s project_id with
  | none => (.ok (), s)
  | some calendar_url =>
    if calendar_url.isEmpty then (.ok (), s)
    else
      match svc_get_project_issues w project_id with
      | .error e => (.error e, s)
      | .ok issues =>
        match get_events_cache w s calendar_url with
        | .error e => (.error e, s)
        | .ok (cache, s1) =>
          let current_uids := issues.map (fun i => issue_uid i.id)
          let events_to_delete :=
            (cache.map (fun p => p.1)).filter (fun u => !(current_uids.contains u))
          let dres := delete_stale_events w calendar_url events_to_delete s1
          let lres := sync_issues_loop w calendar_url issues dres.2
          match lres.1 with
          | .error e => (.error e, lres.2)
          | .ok _ =>
            (.ok (), update_project_mapping w project_id issues.length lres.2)

/-! ## Registry initialization (sync_service.py lines 47-109) -/

/-- The per-project loop of initialize_project_mappings
(sync_service.py lines 65-103): find the first unassigned calendar whose
name matches the expected name case-insensitively, else create one; record
the mapping into project_mappings immediately.  A calendar-creation failure
re-raises with the mappings recorded so far still committed. -/
def init_mappings_loop (w : World) (calendars : List CalDAVCalendar) :
    List PlaneProject → List String → Sys → Except Err Unit × Sys
  | [], _, s => (.ok (), s)
  | p :: rest, used, s =>
    let expected := "Plane: " ++ p.name
    let found := calendars.find? (fun c =>
      !(used.contains c.url) && strLower c.name == strLower expected)
    match found with
    | some cal =>
      let s1 := { s with project_mappings := (alSet s.project_mappings p.id
          ⟨p.id, cal.url, none, 0⟩) }
      init_mappings_loop w calendars rest (used ++ [cal.url]) s1
    | none =>
      match svc_create_calendar w s expected with
      | .error e => (.error e, s)
      | .ok (cal, s1) =>
        let s2 := { s1 with project_mappings := (alSet s1.project_mappings p.id
            ⟨p.id, cal.url, none, 0⟩) }
        init_mappings_loop w calendars rest (used ++ [cal.url]) s2

/-- initialize_project_mappings (sync_service.py lines 47-109): fetch the
projects, refresh and fetch the calendars, then run the per-project loop.
Any exception is logged and re-raised (lines 107-109); state mutated before
the failure point is kept, because Python exceptions do not roll back
assignments already made. -/
def initialize_project_mappings (w : World) (s : Sys) : Except Err Unit × Sys :=
  match svc_get_projects w with
  | .error e => (.error e, s)
  | .ok projects =>
    match svc_get_calendars w s with
    | .error e => (.error e, s)
    | .ok calendars => init_mappings_loop w calendars projects [] s

/-! ## The two coordinator entry points (sync_service.py lines 384-452) -/

/-- The per-project loop of sync_all_projects (sync_service.py
lines 397-399); a failing project aborts the loop and propagates. -/
def sync_projects_loop (w : World) : List String → Sys → Except Err Unit × Sys
  | [], s => (.ok (), s)
  | pid :: rest, s =>
    match sync_project_issues w pid s with
    | (.error e, s1) => (.error e, s1)
    | (.ok _, s1) => sync_projects_loop w rest s1

/-- sync_all_projects (sync_service.py lines 384-409): skip when a sync is
already in progress; otherwise take the lock, initialize mappings when none
exist, sync every mapped project, and in a finally block clear the events
cache and release the lock on every exit path. -/
def sync_all_projects (w : World) (s : Sys) : Except Err Unit × Sys :=
  if s.sync_in_progress then (.ok (), s)
  else
    let s0 := { s with sync_in_progress := true }
    let body : Except Err Unit × Sys :=
      match (if s0.project_mappings.isEmpty
             then initialize_project_mappings w s0
             else (.ok (), s0)) with
      | (.error e, sa) => (.error e, sa)
      | (.ok _, sa) => sync_projects_loop w (sa.project_mappings.map (fun p => p.1)) sa
    (body.1, { body.2 with events_cache := [], sync_in_progress := false })

/-- The per-project loop of sync_updated_issues (sync_service.py
lines 435-442), accumulating the synced and deleted totals; a project whose
mapping has an empty calendar url is skipped. -/
def sync_cleanup_loop (w : World) :
    List (String × SyncMapping) → Nat → Nat → Sys → Except Err (Nat × Nat) × Sys
  | [], accS, accD, s => (.ok (accS, accD), s)
  | (pid, m) :: rest, accS, accD, s =>
    if m.caldav_calendar_url.isEmpty then sync_cleanup_loop w rest accS accD s
    else
      match sync_project_issues_with_cleanup w pid m.caldav_calendar_url s with
      | (.error e, s1) => (.error e, s1)
      | (.ok (sc, dc), s1) => sync_cleanup_loop w rest (accS + sc) (accD + dc) s1

/-- sync_updated_issues (sync_service.py lines 411-452): skip when a sync is
already in progress; otherwise take the lock, always re-initialize the
mappings, reconcile every project with cleanup (the since parameter only
informs logging), and in a finally block clear the events cache and release
the lock on every exit path. -/
def sync_updated_issues (w : World) (since : PyDateTime) (s : Sys) :
    Except Err Unit × Sys :=
  if s.sync_in_progress then (.ok (), s)
  else
    let s0 := { s with sync_in_progress := true }
    let body : Except Err Unit × Sys :=
      match initialize_project_mappings w s0 with
      | (.error e, sa) => (.error e, sa)
      | (.ok _, sa) =>
        match sync_cleanup_loop w sa.project_mappings 0 0 sa with
        | (.error e, sb) => (.error e, sb)
        | (.ok _, sb) => (.ok (), sb)
    (body.1, { body.2 with events_cache := [], sync_in_progress := false })

/-! ## Scheduler (app/services/scheduler_service.py) -/

/-- The scheduler-owned state: the in-memory watermark, the watermark
persisted in the on-disk state file, and the sync engine state the job acts
on (scheduler_service.py lines 39-50). -/
structure SchedState where
  last_sync_time : Option PyDateTime
  persisted_last_sync : Option PyDateTime
  sys : Sys
deriving DecidableEq, Repr

/-- The method named with a leading underscore in the source,
save_last_sync_time (scheduler_service.py lines 125-135): write the
watermark to the state file; a write failure is caught and logged, leaving
the file as it was. -/
def save_last_sync_time (w : World) (sync_time : PyDateTime) (st : SchedState) :
    SchedState :=
  if w.saveFail then st else { st with persisted_last_sync := some sync_time }

/-- The method named with a leading underscore in the source, sync_job
(scheduler_service.py lines 137-157): run sync_updated_issues from the
current watermark (default lookback when none); on success update the
in-memory watermark to now and persist it; any exception is caught and
logged, and the cycle ends with both watermarks untouched.  The function is
total: no exception escapes the job. -/
def sync_job (w : World) (st : SchedState) : SchedState :=
  let last_sync := st.last_sync_time.getD w.defaultLookback
  match sync_updated_issues w last_sync st.sys with
  | (.error _, sys1) => { st with sys := sys1 }
  | (.ok _, sys1) =>
    let st1 : SchedState := { st with sys := sys1, last_sync_time := some w.now }
    save_last_sync_time w w.now st1

/-! ## Webhook handling (app/services/webhook_handler.py,
CalPlaneBot/app/routers/webhooks.py) -/

/-- PlaneWebhookPayload (models/plane.py lines 118-129), restricted to the
fields the handler reads. -/
structure PlaneWebhookPayload where
  event : String
  action : String
  data : PlaneIssue
deriving DecidableEq, Repr

/-- The structured result dict of process_webhook: status success or status
error with a message. -/
inductive WebhookStatus where
  | success
  | error (msg : String)
deriving DecidableEq, Repr

/-- The method named with a leading underscore in the source,
process_issue_webhook (webhook_handler.py lines 88-121).
No calendar mapping for the project (or an empty url, by Python
truthiness): log and return.  Actions create and update run
sync_issue_to_calendar with its default use_cache=True; its failure is
re-raised by the outer handler (lines 119-121).
Action delete: the source line 111 reads
sync_service.caldav_service.delete_event(calendar_url, event_uid), but the
SyncService instance has no attribute caldav_service (its constructor,
sync_service.py lines 35-45, sets only project_mappings, event_mappings,
the events cache and the sync flag, and the class body defines no such
attribute; the caldav_service name in that module is a module-level import,
not an instance attribute).  The attribute access therefore raises
AttributeError before any CalDAV call is made, and the surrounding
try/except at lines 110-114 swallows it as a warning.  The net effect of
the delete branch is: no calendar interaction, state unchanged. -/
def process_issue_webhook (w : World) (webhook : PlaneWebhookPayload) (s : Sys) :
    Except Err Unit × Sys :=
  let issue := webhook.data
  match get_calendar_for_project s issue.project_id with
  | none => (.ok (), s)
  | some calendar_url =>
    if calendar_url.isEmpty then (.ok (), s)
    else if webhook.action == "create" || webhook.action == "update" then
      sync_issue_to_calendar w issue calendar_url true s
    else if webhook.action == "delete" then
      (.ok (), s)
    else (.ok (), s)

/-- verify_signature (webhook_handler.py lines 36-55): with no configured
secret (None or empty, by Python truthiness) verification is skipped and
the result is True; otherwise the HMAC-SHA256 hex digest of the payload is
compared with the signature.  The HMAC primitive is passed in as a
function parameter hmac_hex; compare_digest is equality. -/
def verify_signature (hmac_hex : String → String → String)
    (secret : Option String) (payload signature : String) : Bool :=
  match secret with
  | none => true
  | some sec =>
    if sec.isEmpty then true
    else hmac_hex sec payload == signature

/-- True when a configured secret is present and non-empty. -/
def secret_configured : Option String → Bool
  | none => false
  | some sec => !sec.isEmpty

/-- Model of json.dumps over the payload (webhook_handler.py line 65); only
used as the byte string fed to the HMAC, so any injective-enough rendering
serves. -/
def serialize_payload (p : PlaneWebhookPayload) : String :=
  p.event ++ "|" ++ p.action ++ "|" ++ p.data.id

/-- Outcome of process_webhook: the structured status dict, the resulting
state, and whether an HMAC comparison was actually performed during the
call (true only when both a truthy signature and a truthy secret were
present). -/
structure ProcessOutcome where
  status : WebhookStatus
  sys : Sys
  signature_compared : Bool
deriving DecidableEq, Repr

/-- The body of process_webhook after the signature gate
(webhook_handler.py lines 72-86): issue events are dispatched to the issue
handler, whose exception the surrounding try turns into a status error
dict; every other event type is logged and reported as success. -/
def process_webhook_body (w : World) (webhook : PlaneWebhookPayload) (s : Sys) :
    WebhookStatus × Sys :=
  if webhook.event == "issue" then
    match process_issue_webhook w webhook s with
    | (.ok _, s1) => (.success, s1)
    | (.error _, s1) => (.error "processing failed", s1)
  else (.success, s)

/-- process_webhook (webhook_handler.py lines 57-86): the signature is
checked only when the signature argument is truthy (line 68, an and-gated
test), so a missing signature header skips verification entirely and the
payload is processed as if verified, whatever secret is configured; a
present signature that fails verification yields the invalid-signature
error dict without touching state. -/
def process_webhook (w : World) (hmac_hex : String → String → String)
    (secret : Option String) (webhook : PlaneWebhookPayload)
    (signature : Option String) (s : Sys) : ProcessOutcome :=
  let payload_str := serialize_payload webhook
  let compared :=
    (match signature with
     | some sig => !sig.isEmpty
     | none => false) && secret_configured secret
  match signature with
  | some sig =>
    if !sig.isEmpty && !(verify_signature hmac_hex secret payload_str sig) then
      ⟨.error "Invalid signature", s, compared⟩
    else
      let (st, s1) := process_webhook_body w webhook s
      ⟨st, s1, compared⟩
  | none =>
    let (st, s1) := process_webhook_body w webhook s
    ⟨st, s1, compared⟩

/-- handle_plane_webhook (webhook_handler.py lines 123-133): extract the
X-Plane-Signature header and delegate to process_webhook. -/
def handle_plane_webhook (w : World) (hmac_hex : String → String → String)
    (secret : Option String) (headers : List (String × String))
    (payload : PlaneWebhookPayload) (s : Sys) : ProcessOutcome :=
  process_webhook w hmac_hex secret payload
    (alLookup headers "X-Plane-Signature") s

/-! ## The retry layer (tenacity decorators in caldav_service.py and
plane_service.py)

Every decorated method carries
retry(stop=stop_after_attempt(3), wait=wait_exponential(multiplier=1, min=4,
max=10), retry=retry_if_exception_type(E)) where E is CalDAVError for the
calendar client and PlaneAPIError for the tracker client.  The decorator
re-invokes the wrapped body while the raised exception is an instance of E
and fewer than three attempts have been made. -/

/-- Exceptions at the client level, before and after wrapping. -/
inductive PyExc where
  | calDAVError (msg : String)
  | planeAPIError (msg : String)
  | davError (status : Nat)
  | otherExc (msg : String)
deriving DecidableEq, Repr

/-- retry_if_exception_type(CalDAVError). -/
def is_caldav_error : PyExc → Bool
  | .calDAVError _ => true
  | _ => false

/-- retry_if_exception_type(PlaneAPIError). -/
def is_plane_api_error : PyExc → Bool
  | .planeAPIError _ => true
  | _ => false

/-- wait_exponential(multiplier, min, max) of tenacity: the wait before the
retry that follows failed attempt number n is multiplier * 2 ^ n clamped
into [min, max]. -/
def wait_exponential (multiplier min_wait max_wait n : Nat) : Nat :=
  max min_wait (min (multiplier * 2 ^ n) max_wait)

/-- The wait schedule wait_exponential(multiplier=1, min=4, max=10) used by
every decorated remote call in caldav_service.py and plane_service.py. -/
def remote_retry_wait (n : Nat) : Nat :=
  wait_exponential 1 4 10 n

/-- The attempt loop of the decorator: fuel is the number of attempts still
allowed, attempt the 1-based number of the current attempt.  The call
receives the attempt number; a failure is retried only when the retry
predicate accepts the exception and attempts remain.  Returns the number of
the last attempt made together with its outcome. -/
def retry_go {α : Type} (retryable : PyExc → Bool) (call : Nat → Except PyExc α) :
    Nat → Nat → Nat × Except PyExc α
  | 0, attempt => (attempt, call attempt)
  | 1, attempt => (attempt, call attempt)
  | fuel + 2, attempt =>
    match call attempt with
    | .ok a => (attempt, .ok a)
    | .error e =>
      if retryable e then retry_go retryable call (fuel + 1) (attempt + 1)
      else (attempt, .error e)

/-- The decorator with stop_after_attempt(max_attempts). -/
def run_with_retry {α : Type} (retryable : PyExc → Bool) (max_attempts : Nat)
    (call : Nat → Except PyExc α) : Nat × Except PyExc α :=
  retry_go retryable call max_attempts 1

/-- One attempt of the body of delete_event (caldav_service.py
lines 431-462) against a calendar holding the given uid-keyed events: when
the uid is absent the body raises CalDAVError Event not found (line 458);
when present the event is removed. -/
def delete_event_attempt (server : EvMap) (event_uid : String) :
    Except PyExc EvMap :=
  if (alLookup server event_uid).isSome then .ok (alErase server event_uid)
  else .error (.calDAVError ("Event " ++ event_uid ++ " not found"))

/-- delete_event as decorated: three attempts, retried on CalDAVError. -/
def caldav_delete_event_with_retry (server : EvMap) (event_uid : String) :
    Nat × Except PyExc EvMap :=
  run_with_retry is_caldav_error 3 (fun _ => delete_event_attempt server event_uid)

/-- One attempt of the body of update_event (caldav_service.py
lines 335-424): when the uid is absent the body raises CalDAVError Event not
found (line 368); when present the event is replaced. -/
def update_event_attempt (server : EvMap) (event_uid : String)
    (updated_event : CalDAVEvent) : Except PyExc EvMap :=
  if (alLookup server event_uid).isSome then
    .ok (alSet server event_uid updated_event)
  else .error (.calDAVError ("Event " ++ event_uid ++ " not found"))

/-- update_event as decorated: three attempts, retried on CalDAVError. -/
def caldav_update_event_with_retry (server : EvMap) (event_uid : String)
    (updated_event : CalDAVEvent) : Nat × Except PyExc EvMap :=
  run_with_retry is_caldav_error 3
    (fun _ => update_event_attempt server event_uid updated_event)

/-- One attempt of get_projects (plane_service.py lines 82-93) through
_make_request (lines 49-75): every HTTP status error, 4xx included, and
every transport error is wrapped into PlaneAPIError before leaving the
body; a network response is either the project list or an HTTP status. -/
def get_projects_attempt (response : Except Nat (List PlaneProject)) :
    Except PyExc (List PlaneProject) :=
  match response with
  | .ok ps => .ok ps
  | .error status => .error (.planeAPIError ("API request failed: " ++ toString status))

/-- get_projects as decorated: three attempts, retried on PlaneAPIError. -/
def plane_get_projects_with_retry (response : Except Nat (List PlaneProject)) :
    Nat × Except PyExc (List PlaneProject) :=
  run_with_retry is_plane_api_error 3 (fun _ => get_projects_attempt response)

/-! ## Association-list lemmas -/

theorem alLookup_alSet_self {α : Type} (m : List (String × α)) (k : String) (v : α) :
    alLookup (alSet m k v) k = some v := by
  induction m with
  | nil => simp [alSet, alLookup]
  | cons hd tl ih =>
    obtain ⟨k', v'⟩ := hd
    by_cases h : k' == k
    · simp [alSet, h, alLookup]
    · simp only [alSet, h, Bool.false_eq_true, if_false, alLookup]
      exact ih

theorem alLookup_alErase_self {α : Type} (m : List (String × α)) (k : String) :
    alLookup (alErase m k) k = none := by
  induction m with
  | nil => simp [alErase, alLookup]
  | cons hd tl ih =>
    obtain ⟨k', v'⟩ := hd
    by_cases h : k' == k
    · simpa [alErase, h] using ih
    · simp only [alErase, List.filter_cons] at ih ⊢
      simp [h, alLookup, ih]

theorem alGetD_alSet_self {α : Type} (m : List (String × α)) (k : String)
    (v : α) (d : α) : alGetD (alSet m k v) k d = v := by
  simp [alGetD, alLookup_alSet_self]

/-! ## State-projection lemmas for the cache and mapping helpers -/

theorem invalidate_event_in_cache_server_events (s : Sys) (url uid : String)
    (x : Option CalDAVEvent) :
    (invalidate_event_in_cache s url uid x).server_events = s.server_events := by
  unfold invalidate_event_in_cache
  cases alLookup s.events_cache url <;> cases x <;> rfl

theorem invalidate_event_in_cache_project_mappings (s : Sys) (url uid : String)
    (x : Option CalDAVEvent) :
    (invalidate_event_in_cache s url uid x).project_mappings = s.project_mappings := by
  unfold invalidate_event_in_cache
  cases alLookup s.events_cache url <;> cases x <;> rfl

theorem record_event_mapping_server_events (w : World) (issue : PlaneIssue)
    (ev : CalDAVEvent) (url : String) (s : Sys) :
    (record_event_mapping w issue ev url s).server_events = s.server_events := rfl

theorem record_event_mapping_events_cache (w : World) (issue : PlaneIssue)
    (ev : CalDAVEvent) (url : String) (s : Sys) :
    (record_event_mapping w issue ev url s).events_cache = s.events_cache := rfl

/-! ## Shared concrete instances for witnesses -/

/-- A fault-free world carrying no tracker data, the base of concrete
instantiations. -/
def noFaultWorld : World where
  projects := []
  issues := fun _ => []
  getProjectsFail := false
  getIssuesFail := fun _ => false
  getCalendarsFail := false
  createCalendarFail := fun _ => false
  newCalendarUrl := fun n => n ++ "-url"
  getEventsFail := fun _ => false
  createEventFail := fun _ _ => false
  updateEventFail := fun _ _ => false
  deleteEventFail := fun _ _ => false
  now := ⟨100, 0⟩
  defaultLookback := ⟨50, 0⟩
  saveFail := false

/-- The empty engine state. -/
def emptySys : Sys := ⟨[], [], [], false, [], []⟩

/-! ## Claim C1 -/

/-- Claim C1: a tracked item with no due date (target_date unset) maps to
no calendar event, and running per-item sync on such an item against a
calendar that holds a previously-created event with the item's
deterministic uid deletes that event (the delete call succeeding), with the
per-item sync reporting success. -/
theorem c1_no_due_date_no_event_and_sync_deletes
    (issue : PlaneIssue) (w : World) (s : Sys) (calendar_url : String)
    (use_cache : Bool)
    (hdue : issue.target_date = none)
    (hfault : w.deleteEventFail calendar_url (issue_uid issue.id) = false)
    (hpresent : (alLookup (alGetD s.server_events calendar_url [])
      (issue_uid issue.id)).isSome = true) :
    plane_issue_to_caldav_event issue = none ∧
    (sync_issue_to_calendar w issue calendar_url use_cache s).1 = .ok () ∧
    alLookup (alGetD
      (sync_issue_to_calendar w issue calendar_url use_cache s).2.server_events
      calendar_url []) (issue_uid issue.id) = none := by
  have hmap : plane_issue_to_caldav_event issue = none := by
    simp [plane_issue_to_caldav_event, hdue]
  have hdel : svc_delete_event w s calendar_url (issue_uid issue.id) =
      .ok { s with server_events := (alSet s.server_events calendar_url
        (alErase (alGetD s.server_events calendar_url [])
          (issue_uid issue.id))) } := by
    simp [svc_delete_event, hfault, hpresent]
  refine ⟨hmap, ?_, ?_⟩
  · simp [sync_issue_to_calendar, hmap, hdel]
  · simp only [sync_issue_to_calendar, hmap, hdel]
    rw [invalidate_event_in_cache_server_events]
    simp [alGetD_alSet_self, alLookup_alErase_self]

/-- An issue with no due date, for the C1 witness. -/
def c1_issue : PlaneIssue :=
  ⟨"i1", "Task", none, 7, none, none, none, none, [], [], "p1", ⟨10, 0⟩⟩

/-- The previously-created event for c1_issue, for the C1 witness. -/
def c1_event : CalDAVEvent :=
  ⟨issue_uid "i1", "[7] Task", "", ⟨1, 0⟩, ⟨1, 0⟩, true, "CONFIRMED", [], [],
   "#8E8E93", "u"⟩

/-- State whose calendar cal holds the previously-created event, for the
C1 witness. -/
def c1_sys : Sys :=
  ⟨[], [], [], false, [("cal", [(issue_uid "i1", c1_event)])], []⟩

/-- Witness instantiating C1 at a concrete item and calendar. -/
theorem c1_no_due_date_no_event_and_sync_deletes_witness :
    c1_issue.target_date = none ∧
    noFaultWorld.deleteEventFail "cal" (issue_uid c1_issue.id) = false ∧
    (alLookup (alGetD c1_sys.server_events "cal" [])
      (issue_uid c1_issue.id)).isSome = true ∧
    (plane_issue_to_caldav_event c1_issue = none ∧
     (sync_issue_to_calendar noFaultWorld c1_issue "cal" true c1_sys).1 = .ok () ∧
     alLookup (alGetD
       (sync_issue_to_calendar noFaultWorld c1_issue "cal" true c1_sys).2.server_events
       "cal" []) (issue_uid c1_issue.id) = none) :=
  ⟨rfl, rfl, by decide,
   c1_no_due_date_no_event_and_sync_deletes c1_issue noFaultWorld c1_sys "cal"
     true rfl rfl (by decide)⟩

/-! ## Claim C7 -/

/-- Claim C7: every tracked item with a due date maps to an all-day event;
when start_date is set and precedes target_date the event spans start_date
to target_date, otherwise it is a single-day event on target_date with
start equal to end; the time-of-day of both bounds is discarded (both
bounds sit at midnight of their dates). -/
theorem c7_due_date_event_all_day_span
    (issue : PlaneIssue) (target : PyDateTime)
    (hdue : issue.target_date = some target) :
    (plane_issue_to_caldav_event issue).map CalDAVEvent.all_day = some true ∧
    (plane_issue_to_caldav_event issue).map CalDAVEvent.end_ =
      some (combineMinTime target) ∧
    (plane_issue_to_caldav_event issue).map CalDAVEvent.start =
      some (match issue.start_date with
            | some sd => if PyDateTime.ltb sd target then combineMinTime sd
                         else combineMinTime target
            | none => combineMinTime target) ∧
    (plane_issue_to_caldav_event issue).map (fun e => e.start.tod) = some 0 ∧
    (plane_issue_to_caldav_event issue).map (fun e => e.end_.tod) = some 0 ∧
    ((∀ sd, issue.start_date = some sd → PyDateTime.ltb sd target = false) →
      (plane_issue_to_caldav_event issue).map (fun e => e.start == e.end_) =
        some true) := by
  cases hsd : issue.start_date with
  | none =>
    simp [plane_issue_to_caldav_event, hdue, hsd, combineMinTime]
  | some sd =>
    by_cases hlt : PyDateTime.ltb sd target
    · refine ⟨?_, ?_, ?_, ?_, ?_, ?_⟩ <;>
        simp [plane_issue_to_caldav_event, hdue, hsd, hlt, combineMinTime]
    · simp [plane_issue_to_caldav_event, hdue, hsd, hlt, combineMinTime]

/-- Witness instantiating C7 at a concrete item whose start date precedes
its due date, with nonzero times of day on both. -/
theorem c7_due_date_event_all_day_span_witness :
    (⟨"i7", "T", none, 3, some ⟨5, 17⟩, some ⟨9, 4⟩, none, none, [], [], "p",
      ⟨10, 0⟩⟩ : PlaneIssue).target_date = some ⟨9, 4⟩ ∧
    (plane_issue_to_caldav_event
      ⟨"i7", "T", none, 3, some ⟨5, 17⟩, some ⟨9, 4⟩, none, none, [], [], "p",
        ⟨10, 0⟩⟩).map CalDAVEvent.all_day = some true ∧
    (plane_issue_to_caldav_event
      ⟨"i7", "T", none, 3, some ⟨5, 17⟩, some ⟨9, 4⟩, none, none, [], [], "p",
        ⟨10, 0⟩⟩).map CalDAVEvent.start = some ⟨5, 0⟩ ∧
    (plane_issue_to_caldav_event
      ⟨"i7", "T", none, 3, some ⟨5, 17⟩, some ⟨9, 4⟩, none, none, [], [], "p",
        ⟨10, 0⟩⟩).map CalDAVEvent.end_ = some ⟨9, 0⟩ := by
  have h := c7_due_date_event_all_day_span
    ⟨"i7", "T", none, 3, some ⟨5, 17⟩, some ⟨9, 4⟩, none, none, [], [], "p",
      ⟨10, 0⟩⟩ ⟨9, 4⟩ rfl
  exact ⟨rfl, h.1, by simpa [combineMinTime] using h.2.2.1, by
    simpa [combineMinTime] using h.2.1⟩

/-! ## Claim C10 -/

/-- The category collection serialized into the ICS event on the calendar
write path: both create_event (caldav_service.py line 295) and update_event
(caldav_service.py line 389) assign set(event.categories) (the empty branch
of the source conditional also yields the empty set), so the stored
collection is the unordered deduplicated set of the category list. -/
def ics_event_categories (event : CalDAVEvent) : Finset String :=
  event.categories.toFinset

/-- A mapper input carrying a duplicated label name, for C10. -/
def c10_issue : PlaneIssue :=
  ⟨"i10", "N", none, 1, none, some ⟨3, 0⟩, none, none, [], [⟨"X"⟩, ⟨"X"⟩], "p",
   ⟨0, 0⟩⟩

/-- Claim C10: the calendar write path converts the category list to a set
before serializing: membership is preserved, every name occurs at most once
in the stored collection, the stored collection is insensitive to the order
of the mapper's list, and a duplicate produced by the mapper (which
deduplicates nothing, as the concrete item with a repeated label shows)
does not survive serialization. -/
theorem c10_categories_serialized_as_set :
    (∀ (e : CalDAVEvent) (c : String),
      c ∈ ics_event_categories e ↔ c ∈ e.categories) ∧
    (∀ (e : CalDAVEvent) (c : String),
      (ics_event_categories e).val.count c ≤ 1) ∧
    (∀ e₁ e₂ : CalDAVEvent, e₁.categories.Perm e₂.categories →
      ics_event_categories e₁ = ics_event_categories e₂) ∧
    ((plane_issue_to_caldav_event c10_issue).map CalDAVEvent.categories =
      some ["X", "X"] ∧
     (plane_issue_to_caldav_event c10_issue).map ics_event_categories =
      some {"X"}) := by
  refine ⟨?_, ?_, ?_, by decide, by decide⟩
  · intro e c
    simp [ics_event_categories]
  · intro e c
    exact Multiset.nodup_iff_count_le_one.mp e.categories.toFinset.nodup c
  · intro e₁ e₂ h
    unfold ics_event_categories
    exact List.toFinset_eq_of_perm _ _ h

/-- Witness instantiating the order-insensitivity part of C10 at two
concrete events whose category lists are reorderings of each other. -/
theorem c10_categories_serialized_as_set_witness :
    (["A", "B"] : List String).Perm ["B", "A"] ∧
    ics_event_categories
      ⟨"u", "s", "d", ⟨0, 0⟩, ⟨0, 0⟩, true, "CONFIRMED", ["A", "B"], [], "", ""⟩ =
    ics_event_categories
      ⟨"u", "s", "d", ⟨0, 0⟩, ⟨0, 0⟩, true, "CONFIRMED", ["B", "A"], [], "", ""⟩ :=
  ⟨by decide,
   c10_categories_serialized_as_set.2.2.1
     ⟨"u", "s", "d", ⟨0, 0⟩, ⟨0, 0⟩, true, "CONFIRMED", ["A", "B"], [], "", ""⟩
     ⟨"u", "s", "d", ⟨0, 0⟩, ⟨0, 0⟩, true, "CONFIRMED", ["B", "A"], [], "", ""⟩
     (by decide)⟩

/-! ## Claim C9 -/

/-- Claim C9: when the incoming request carries no signature header,
process_webhook performs no signature verification at all (no HMAC
comparison happens) and processes the payload exactly as the unverified
body path would, and its outcome is identical whatever webhook secret is
configured. -/
theorem c9_missing_signature_skips_verification
    (w : World) (hmac_hex : String → String → String) (secret : Option String)
    (webhook : PlaneWebhookPayload) (s : Sys) :
    (process_webhook w hmac_hex secret webhook none s).signature_compared = false ∧
    (process_webhook w hmac_hex secret webhook none s).status =
      (process_webhook_body w webhook s).1 ∧
    (process_webhook w hmac_hex secret webhook none s).sys =
      (process_webhook_body w webhook s).2 ∧
    process_webhook w hmac_hex secret webhook none s =
      process_webhook w hmac_hex none webhook none s := by
  refine ⟨rfl, rfl, rfl, ?_⟩
  simp [process_webhook, secret_configured]

/-! ## Claim C4 -/

/-- Claim C4: invoking an entry point while a sync is in progress returns
immediately with the state unchanged for every possible world (so no
collaborator is consulted and no second pass runs), and when a pass does
run, both entry points end with the events cache cleared and the
in-progress lock released on every exit path, success or exception. -/
theorem c4_single_flight_and_guaranteed_cleanup
    (w : World) (s : Sys) (since : PyDateTime) :
    (s.sync_in_progress = true →
      sync_all_projects w s = (.ok (), s) ∧
      sync_updated_issues w since s = (.ok (), s)) ∧
    (s.sync_in_progress = false →
      (sync_all_projects w s).2.events_cache = [] ∧
      (sync_all_projects w s).2.sync_in_progress = false ∧
      (sync_updated_issues w since s).2.events_cache = [] ∧
      (sync_updated_issues w since s).2.sync_in_progress = false) := by
  constructor
  · intro h
    constructor <;> simp [sync_all_projects, sync_updated_issues, h]
  · intro h
    refine ⟨?_, ?_, ?_, ?_⟩ <;> simp [sync_all_projects, sync_updated_issues, h]

/-- Witness instantiating C4: the busy no-op at a concrete busy state and
the guaranteed cleanup at the concrete idle state. -/
theorem c4_single_flight_and_guaranteed_cleanup_witness :
    ({ emptySys with sync_in_progress := true } : Sys).sync_in_progress = true ∧
    sync_all_projects noFaultWorld { emptySys with sync_in_progress := true } =
      (.ok (), { emptySys with sync_in_progress := true }) ∧
    emptySys.sync_in_progress = false ∧
    (sync_all_projects noFaultWorld emptySys).2.events_cache = [] ∧
    (sync_all_projects noFaultWorld emptySys).2.sync_in_progress = false :=
  ⟨rfl,
   ((c4_single_flight_and_guaranteed_cleanup noFaultWorld
      { emptySys with sync_in_progress := true } ⟨0, 0⟩).1 rfl).1,
   rfl,
   ((c4_single_flight_and_guaranteed_cleanup noFaultWorld emptySys ⟨0, 0⟩).2 rfl).1,
   ((c4_single_flight_and_guaranteed_cleanup noFaultWorld emptySys ⟨0, 0⟩).2 rfl).2.1⟩

/-! ## Claim C6 -/

/-- The tracked item of the C6 delete notification. -/
def c6_issue : PlaneIssue :=
  ⟨"i6", "T", none, 2, none, none, none, none, [], [], "p6", ⟨0, 0⟩⟩

/-- The calendar event previously created for c6_issue. -/
def c6_event : CalDAVEvent :=
  ⟨issue_uid "i6", "[2] T", "", ⟨1, 0⟩, ⟨1, 0⟩, true, "CONFIRMED", [], [],
   "#8E8E93", ""⟩

/-- State with the project mapped to calendar cal6 and the event present on
the server, for C6. -/
def c6_sys : Sys :=
  ⟨[("p6", ⟨"p6", "cal6", none, 0⟩)], [], [], false,
   [("cal6", [(issue_uid "i6", c6_event)])], []⟩

/-- The delete notification for c6_issue. -/
def c6_payload : PlaneWebhookPayload := ⟨"issue", "delete", c6_issue⟩

/-- Claim C6, evaluated at the failing input: a delete notification for a
project with a calendar mapping does NOT remove the event carrying the
item's deterministic uid.  The source line webhook_handler.py:111 reads the
attribute caldav_service off the SyncService instance, which does not
exist (sync_service.py lines 35-45 define no such attribute), so the branch
raises AttributeError before any calendar call and the inner handler
swallows it: the handler reports success, the state is untouched, and the
event is still present afterwards. -/
theorem c6_delete_webhook_leaves_event_in_place :
    get_calendar_for_project c6_sys "p6" = some "cal6" ∧
    (alLookup (alGetD c6_sys.server_events "cal6" []) (issue_uid "i6")).isSome
      = true ∧
    process_issue_webhook noFaultWorld c6_payload c6_sys = (.ok (), c6_sys) ∧
    (process_webhook noFaultWorld (fun _ _ => "") none c6_payload none c6_sys).status
      = .success ∧
    (process_webhook noFaultWorld (fun _ _ => "") none c6_payload none c6_sys).sys
      = c6_sys ∧
    alLookup (alGetD
      (process_issue_webhook noFaultWorld c6_payload c6_sys).2.server_events
      "cal6" []) (issue_uid "i6") = some c6_event := by
  refine ⟨by rfl, by rfl, by rfl, by rfl, by rfl, by rfl⟩

/-! ## Claim C8 -/

/-- Claim C8: the scheduled sync job is a total function (every failure of
the cycle is caught, so the process does not crash); when the cycle fails,
both the in-memory watermark and the persisted watermark are left
unchanged; and the persisted watermark changes only when the cycle
succeeded, in which case it becomes the cycle's completion instant. -/
theorem c8_failed_cycle_leaves_watermark_unchanged
    (w : World) (st : SchedState) :
    (exOk (sync_updated_issues w (st.last_sync_time.getD w.defaultLookback)
        st.sys).1 = false →
      (sync_job w st).last_sync_time = st.last_sync_time ∧
      (sync_job w st).persisted_last_sync = st.persisted_last_sync) ∧
    ((sync_job w st).persisted_last_sync ≠ st.persisted_last_sync →
      exOk (sync_updated_issues w (st.last_sync_time.getD w.defaultLookback)
        st.sys).1 = true ∧
      (sync_job w st).persisted_last_sync = some w.now) := by
  unfold sync_job
  cases hr : sync_updated_issues w (st.last_sync_time.getD w.defaultLookback)
      st.sys with
  | mk r sys1 =>
    cases r with
    | error e => simp [exOk, hr]
    | ok u =>
      by_cases hs : w.saveFail <;>
        simp [exOk, save_last_sync_time, hs, hr]

/-- Witness instantiating C8 at a concrete world whose tracker is down (the
cycle fails at mapping initialization) and a scheduler state with both
watermarks set. -/
theorem c8_failed_cycle_leaves_watermark_unchanged_witness :
    exOk (sync_updated_issues { noFaultWorld with getProjectsFail := true }
      ((some ⟨1, 0⟩ : Option PyDateTime).getD
        ({ noFaultWorld with getProjectsFail := true } : World).defaultLookback)
      emptySys).1 = false ∧
    (sync_job { noFaultWorld with getProjectsFail := true }
      ⟨some ⟨1, 0⟩, some ⟨2, 0⟩, emptySys⟩).last_sync_time = some ⟨1, 0⟩ ∧
    (sync_job { noFaultWorld with getProjectsFail := true }
      ⟨some ⟨1, 0⟩, some ⟨2, 0⟩, emptySys⟩).persisted_last_sync = some ⟨2, 0⟩ :=
  ⟨by decide,
   ((c8_failed_cycle_leaves_watermark_unchanged
      { noFaultWorld with getProjectsFail := true }
      ⟨some ⟨1, 0⟩, some ⟨2, 0⟩, emptySys⟩).1 (by decide)).1,
   ((c8_failed_cycle_leaves_watermark_unchanged
      { noFaultWorld with getProjectsFail := true }
      ⟨some ⟨1, 0⟩, some ⟨2, 0⟩, emptySys⟩).1 (by decide)).2⟩

/-! ## Claim C5 -/

/-- The three-attempt decorator unrolled: definitional shape of
run_with_retry at stop_after_attempt(3). -/
theorem run_with_retry_three {α : Type} (retryable : PyExc → Bool)
    (call : Nat → Except PyExc α) :
    run_with_retry retryable 3 call =
      (match call 1 with
       | .ok x => (1, .ok x)
       | .error err =>
         if retryable err then
           (match call 2 with
            | .ok x => (2, .ok x)
            | .error err2 =>
              if retryable err2 then (3, call 3) else (2, .error err2))
         else (1, .error err)) := rfl

/-- A call that always raises a retryable exception is attempted exactly
three times before the exception surfaces. -/
theorem run_with_retry_three_const_fail {α : Type} (retryable : PyExc → Bool)
    (call : Nat → Except PyExc α) (e : PyExc)
    (he : retryable e = true) (hc : ∀ n, call n = .error e) :
    run_with_retry retryable 3 call = ((3 : Nat), .error e) := by
  rw [run_with_retry_three]
  simp [hc, he]

/-- Counterexample to C5 as stated: a delete and an update that find no
event with the given uid ARE retried — each makes three attempts before
surfacing the not-found CalDAVError, because the body wraps the not-found
outcome in CalDAVError, the exact exception type the decorator retries. -/
theorem c5_not_found_delete_update_are_retried :
    caldav_delete_event_with_retry [] "u" =
      ((3 : Nat), .error (.calDAVError "Event u not found")) ∧
    caldav_update_event_with_retry [] "u"
      ⟨"u", "s", "d", ⟨0, 0⟩, ⟨0, 0⟩, true, "CONFIRMED", [], [], "", ""⟩ =
      ((3 : Nat), .error (.calDAVError "Event u not found")) := by
  constructor <;> rfl

/-- Claim C5 as amended: every decorated remote call makes at most three
attempts, with the exponential backoff schedule floored at 4 and capped
at 10; a first-attempt exception that is not of the module's wrapper type
is never retried; and because delete_event, update_event and the tracker
fetches raise their wrapper type (CalDAVError, PlaneAPIError) for
not-found outcomes and wrapped HTTP failures alike, those outcomes ARE
retried to exhaustion: three attempts each. -/
theorem c5_retry_three_attempts_wrapper_class_only :
    (∀ (α : Type) (retryable : PyExc → Bool) (call : Nat → Except PyExc α),
      (run_with_retry retryable 3 call).1 ≤ 3) ∧
    (∀ (α : Type) (retryable : PyExc → Bool) (call : Nat → Except PyExc α)
      (e : PyExc), call 1 = .error e → retryable e = false →
      run_with_retry retryable 3 call = ((1 : Nat), .error e)) ∧
    (∀ n : Nat, 4 ≤ remote_retry_wait n ∧ remote_retry_wait n ≤ 10) ∧
    (∀ (server : EvMap) (uid : String), alLookup server uid = none →
      caldav_delete_event_with_retry server uid =
        ((3 : Nat), .error (.calDAVError ("Event " ++ uid ++ " not found")))) ∧
    (∀ (server : EvMap) (uid : String) (ev : CalDAVEvent),
      alLookup server uid = none →
      caldav_update_event_with_retry server uid ev =
        ((3 : Nat), .error (.calDAVError ("Event " ++ uid ++ " not found")))) ∧
    (∀ status : Nat, plane_get_projects_with_retry (.error status) =
      ((3 : Nat), .error (.planeAPIError ("API request failed: " ++
        toString status)))) := by
  refine ⟨?_, ?_, ?_, ?_, ?_, ?_⟩
  · intro α retryable call
    rw [run_with_retry_three]
    cases call 1 with
    | ok x => simp
    | error e =>
      by_cases h1 : retryable e
      · simp only [h1, if_true]
        cases call 2 with
        | ok x => simp
        | error e2 =>
          by_cases h2 : retryable e2 <;> simp [h2]
      · simp [h1]
  · intro α retryable call e hc hr
    rw [run_with_retry_three, hc]
    simp [hr]
  · intro n
    unfold remote_retry_wait wait_exponential
    exact ⟨Nat.le_max_left _ _,
      max_le (by norm_num) (Nat.min_le_right _ _)⟩
  · intro server uid h
    apply run_with_retry_three_const_fail
    · rfl
    · intro n
      simp [delete_event_attempt, h]
  · intro server uid ev h
    apply run_with_retry_three_const_fail
    · rfl
    · intro n
      simp [update_event_attempt, h]
  · intro status
    apply run_with_retry_three_const_fail
    · rfl
    · intro n
      simp [get_projects_attempt]

/-- Witness instantiating C5 as amended at concrete inputs: a server that
holds one unrelated event, an absent uid, and a concrete HTTP failure. -/
theorem c5_retry_three_attempts_wrapper_class_only_witness :
    alLookup [("other", c1_event)] "x" = none ∧
    caldav_delete_event_with_retry [("other", c1_event)] "x" =
      ((3 : Nat), .error (.calDAVError "Event x not found")) ∧
    (4 ≤ remote_retry_wait 1 ∧ remote_retry_wait 1 ≤ 10) ∧
    plane_get_projects_with_retry (.error 500) =
      ((3 : Nat), .error (.planeAPIError "API request failed: 500")) :=
  ⟨by decide,
   c5_retry_three_attempts_wrapper_class_only.2.2.2.1 [("other", c1_event)] "x"
     (by decide),
   c5_retry_three_attempts_wrapper_class_only.2.2.1 1,
   c5_retry_three_attempts_wrapper_class_only.2.2.2.2.2 500⟩

/-! ## Claim C3 -/

/-- A world with two projects and no pre-existing calendars, whose calendar
server fails exactly when asked to create the second project's calendar. -/
def c3_world : World :=
  { noFaultWorld with
    projects := [⟨"p1", "A"⟩, ⟨"p2", "B"⟩],
    createCalendarFail := fun name => name == "Plane: B" }

/-- Counterexample to C3 as stated: initialize_project_mappings is NOT
all-or-nothing.  With two projects and a creation failure on the second,
the call raises, yet the mapping recorded for the first project stays
committed in project_mappings, which therefore differs from its value
before the call. -/
theorem c3_partial_commit_on_midloop_failure :
    exOk (initialize_project_mappings c3_world emptySys).1 = false ∧
    alLookup
      (initialize_project_mappings c3_world emptySys).2.project_mappings "p1" =
      some ⟨"p1", "Plane: A-url", none, 0⟩ ∧
    alLookup emptySys.project_mappings "p1" = none ∧
    (initialize_project_mappings c3_world emptySys).2.project_mappings ≠
      emptySys.project_mappings := by
  refine ⟨by decide, by rfl, by rfl, by decide⟩

/-- Claim C3 as amended: the all-or-nothing guarantee holds only for the
fetch phase.  If fetching the project list fails, or the project fetch
succeeds and listing calendars fails, the call raises with the whole state
exactly as before.  A failure during the per-project loop (creating a
missing calendar) still raises, but the mappings recorded for projects
processed earlier in the same call remain committed, as witnessed by the
concrete two-project run in which the first project's mapping survives the
raised error. -/
theorem c3_fetch_atomic_loop_keeps_earlier_mappings
    (w : World) (s : Sys) :
    (w.getProjectsFail = true →
      initialize_project_mappings w s = (.error (.plane "API request failed"), s)) ∧
    (w.getProjectsFail = false → w.getCalendarsFail = true →
      initialize_project_mappings w s =
        (.error (.caldav "Failed to get calendars"), s)) ∧
    (exOk (initialize_project_mappings c3_world emptySys).1 = false ∧
     alLookup
       (initialize_project_mappings c3_world emptySys).2.project_mappings "p1" =
       some ⟨"p1", "Plane: A-url", none, 0⟩) := by
  refine ⟨?_, ?_, by decide, by rfl⟩
  · intro h
    simp [initialize_project_mappings, svc_get_projects, h]
  · intro h1 h2
    simp [initialize_project_mappings, svc_get_projects, svc_get_calendars, h1, h2]

/-- Witness instantiating the fetch-phase part of amended C3 at a concrete
world whose tracker is down. -/
theorem c3_fetch_atomic_loop_keeps_earlier_mappings_witness :
    ({ noFaultWorld with getProjectsFail := true } : World).getProjectsFail
      = true ∧
    initialize_project_mappings { noFaultWorld with getProjectsFail := true }
      emptySys = (.error (.plane "API request failed"), emptySys) :=
  ⟨rfl,
   (c3_fetch_atomic_loop_keeps_earlier_mappings
     { noFaultWorld with getProjectsFail := true } emptySys).1 rfl⟩

/-! ## Claim C2 -/

/-- The cycle-freshness invariant relating the events cache to the calendar
server for one calendar: the cache holds exactly the server's current
uid-keyed events.  It is established when the cache is loaded at the start
of a batch and maintained by every write because each successful write
invalidates the cache entry with the same change. -/
def cache_fresh (s : Sys) (url : String) : Prop :=
  alLookup s.events_cache url = some (alGetD s.server_events url [])

theorem invalidate_none_cache (s : Sys) (url uid : String) (m : EvMap)
    (h : alLookup s.events_cache url = some m) :
    (invalidate_event_in_cache s url uid none).events_cache =
      alSet s.events_cache url (alErase m uid) := by
  unfold invalidate_event_in_cache
  rw [h]

theorem invalidate_some_cache (s : Sys) (url uid : String) (ev : CalDAVEvent)
    (m : EvMap) (h : alLookup s.events_cache url = some m) :
    (invalidate_event_in_cache s url uid (some ev)).events_cache =
      alSet s.events_cache url (alSet m uid ev) := by
  unfold invalidate_event_in_cache
  rw [h]

/-- One stale-event delete step (successful delete followed by cache
invalidation, or failure swallowed) keeps the cache fresh. -/
theorem cache_fresh_delete_step (w : World) (s : Sys) (url uid : String)
    (hf : cache_fresh s url) :
    cache_fresh (match svc_delete_event w s url uid with
      | .ok s1 => invalidate_event_in_cache s1 url uid none
      | .error _ => s) url := by
  unfold svc_delete_event
  by_cases hd : w.deleteEventFail url uid
  · simpa [hd] using hf
  · by_cases hp : (alLookup (alGetD s.server_events url []) uid).isSome
    · simp only [hd, hp, Bool.false_eq_true, if_false, if_true]
      unfold cache_fresh
      rw [invalidate_none_cache _ _ _ (alGetD s.server_events url []) (by exact hf)]
      rw [invalidate_event_in_cache_server_events]
      simp [alLookup_alSet_self, alGetD_alSet_self]
    · simpa [hd, hp] using hf

/-- The whole delete phase keeps the cache fresh, whatever deletes fail. -/
theorem cache_fresh_delete_phase (w : World) (url : String) :
    ∀ (uids : List String) (s : Sys), cache_fresh s url →
      cache_fresh (delete_stale_events w url uids s).2 url := by
  intro uids
  induction uids with
  | nil => intro s hf; exact hf
  | cons uid rest ih =>
    intro s hf
    have hstep := cache_fresh_delete_step w s url uid hf
    unfold delete_stale_events
    cases hdel : svc_delete_event w s url uid with
    | ok s1 =>
      rw [hdel] at hstep
      exact ih _ hstep
    | error e =>
      rw [hdel] at hstep
      exact ih _ hstep

/-- A successful write (server set to the new value, cache invalidated with
the same value, mapping recorded) re-establishes cache freshness. -/
theorem cache_fresh_write_step (w : World) (issue : PlaneIssue) (s : Sys)
    (url uid : String) (ev : CalDAVEvent) (M : EvMap)
    (hf : alLookup s.events_cache url = some M) :
    cache_fresh (record_event_mapping w issue ev url
      (invalidate_event_in_cache
        { s with server_events := (alSet s.server_events url (alSet M uid ev)) }
        url uid (some ev))) url := by
  unfold cache_fresh
  rw [record_event_mapping_events_cache,
      invalidate_some_cache _ _ _ _ M (by exact hf),
      record_event_mapping_server_events,
      invalidate_event_in_cache_server_events]
  simp [alLookup_alSet_self, alGetD_alSet_self]

/-- With a fresh cache and no create or update fault on the calendar, the
per-item sync of one issue through the cache always succeeds — the only
failure-capable steps are the swallowed delete, the cache hit, and the
fault-free create or update — and it keeps the cache fresh. -/
theorem sync_issue_ok_and_fresh (w : World) (issue : PlaneIssue) (url : String)
    (s : Sys)
    (hcreate : ∀ uid, w.createEventFail url uid = false)
    (hupdate : ∀ uid, w.updateEventFail url uid = false)
    (hf : cache_fresh s url) :
    (sync_issue_to_calendar w issue url true s).1 = .ok () ∧
    cache_fresh (sync_issue_to_calendar w issue url true s).2 url := by
  simp only [sync_issue_to_calendar]
  cases hmap : plane_issue_to_caldav_event issue with
  | none =>
    have hstep := cache_fresh_delete_step w s url (issue_uid issue.id) hf
    cases hdel : svc_delete_event w s url (issue_uid issue.id) with
    | ok s1 =>
      rw [hdel] at hstep
      exact ⟨rfl, hstep⟩
    | error e =>
      rw [hdel] at hstep
      exact ⟨rfl, hstep⟩
  | some ev =>
    have hget : get_events_cache w s url =
        .ok (alGetD s.server_events url [], s) := by
      unfold get_events_cache
      rw [hf]
    simp only [hget, if_true]
    cases hex : alLookup (alGetD s.server_events url []) ev.uid with
    | some e0 =>
      have hupd : svc_update_event w s url ev.uid ev =
          .ok { s with server_events := (alSet s.server_events url
            (alSet (alGetD s.server_events url []) ev.uid ev)) } := by
        unfold svc_update_event
        simp [hupdate ev.uid, hex]
      rw [hupd]
      exact ⟨rfl, cache_fresh_write_step w issue s url ev.uid ev _ hf⟩
    | none =>
      have hcre : svc_create_event w s url ev =
          .ok { s with server_events := (alSet s.server_events url
            (alSet (alGetD s.server_events url []) ev.uid ev)) } := by
        unfold svc_create_event
        simp [hcreate ev.uid]
      rw [hcre]
      exact ⟨rfl, cache_fresh_write_step w issue s url ev.uid ev _ hf⟩

/-- With a fresh cache and no create or update fault on the calendar, the
whole per-item sync phase succeeds and keeps the cache fresh. -/
theorem sync_loop_ok_and_fresh (w : World) (url : String)
    (hcreate : ∀ uid, w.createEventFail url uid = false)
    (hupdate : ∀ uid, w.updateEventFail url uid = false) :
    ∀ (issues : List PlaneIssue) (s : Sys), cache_fresh s url →
      exOk (sync_issues_loop w url issues s).1 = true ∧
      cache_fresh (sync_issues_loop w url issues s).2 url := by
  intro issues
  induction issues with
  | nil =>
    intro s hf
    exact ⟨rfl, hf⟩
  | cons issue rest ih =>
    intro s hf
    obtain ⟨hr, hf1⟩ := sync_issue_ok_and_fresh w issue url s hcreate hupdate hf
    obtain ⟨h2, hf2⟩ :=
      ih (sync_issue_to_calendar w issue url true s).2 hf1
    unfold sync_issues_loop
    simp only [hr]
    cases hrec : (sync_issues_loop w url rest
        (sync_issue_to_calendar w issue url true s).2).1 with
    | error e =>
      rw [hrec] at h2
      simp [exOk] at h2
    | ok n =>
      simp only [hrec]
      exact ⟨rfl, hf2⟩

/-- The single due-dated issue of the C2 counterexample. -/
def c2_issue : PlaneIssue :=
  ⟨"i2", "T", none, 1, none, some ⟨5, 0⟩, none, none, [], [], "p2", ⟨0, 0⟩⟩

/-- A world whose tracker reports one issue for project p2 and whose
calendar rejects every event creation: the fetch phase and the delete phase
are fault-free, only the per-item sync phase can fail. -/
def c2_world : World :=
  { noFaultWorld with
    issues := fun pid => if pid == "p2" then [c2_issue] else [],
    createEventFail := fun _ _ => true }

/-- Counterexample to C2 as stated: a failure affecting a single item
during the per-item sync phase DOES make sync_project_issues_with_cleanup
raise.  In a world where fetching issues and the event cache succeed and
nothing is stale, the single issue's event creation fails and the whole
call returns that error instead of a count pair. -/
theorem c2_per_item_sync_failure_raises :
    exOk (sync_project_issues_with_cleanup c2_world "p2" "cal2" emptySys).1
      = false ∧
    (sync_project_issues_with_cleanup c2_world "p2" "cal2" emptySys).1 =
      .error (.caldav "Failed to create event") := by
  constructor
  · rfl
  · rfl

/-- Claim C2 as amended: sync_project_issues_with_cleanup returns the
(syncedCount, deletedCount) pair and never raises for a failure affecting a
single item during the delete phase — with the issue fetch succeeding, the
cache loaded fresh in this cycle, and no create or update fault on the
calendar, the call succeeds whatever deletions fail.  It raises for
fetch-phase failures (the issue list or the initial event cache), which
propagate with the state unchanged, and it also raises when a per-item sync
fails, as the concrete one-issue run shows. -/
theorem c2_counts_delete_isolated_fetch_and_sync_propagate
    (w : World) (pid url : String) (s : Sys) :
    (w.getIssuesFail pid = true →
      sync_project_issues_with_cleanup w pid url s =
        (.error (.plane "API request failed"), s)) ∧
    (w.getIssuesFail pid = false → alLookup s.events_cache url = none →
      w.getEventsFail url = true →
      sync_project_issues_with_cleanup w pid url s =
        (.error (.caldav "Failed to get events"), s)) ∧
    (w.getIssuesFail pid = false → alLookup s.events_cache url = none →
      w.getEventsFail url = false →
      (∀ uid, w.createEventFail url uid = false) →
      (∀ uid, w.updateEventFail url uid = false) →
      exOk (sync_project_issues_with_cleanup w pid url s).1 = true) ∧
    exOk (sync_project_issues_with_cleanup c2_world "p2" "cal2" emptySys).1
      = false := by
  refine ⟨?_, ?_, ?_, by rfl⟩
  · intro h
    simp [sync_project_issues_with_cleanup, svc_get_project_issues, h]
  · intro h1 h2 h3
    simp [sync_project_issues_with_cleanup, svc_get_project_issues, h1,
      get_events_cache, h2, svc_get_calendar_events, h3]
  · intro h1 h2 h3 hc hu
    have hload : get_events_cache w s url =
        .ok (alGetD s.server_events url [],
          { s with events_cache :=
              (alSet s.events_cache url (alGetD s.server_events url [])) }) := by
      unfold get_events_cache
      rw [h2]
      unfold svc_get_calendar_events
      simp [h3]
    have hf1 : cache_fresh
        { s with events_cache :=
            (alSet s.events_cache url (alGetD s.server_events url [])) } url := by
      unfold cache_fresh
      simp [alLookup_alSet_self]
    unfold sync_project_issues_with_cleanup
    rw [show svc_get_project_issues w pid = .ok (w.issues pid) from by
      simp [svc_get_project_issues, h1]]
    rw [hload]
    have hdelf := cache_fresh_delete_phase w url
      ((((alGetD s.server_events url []).map (fun p => p.1)).filter
        (fun u => !(((w.issues pid).map (fun i => issue_uid i.id)).contains u))))
      _ hf1
    obtain ⟨hloop, _⟩ := sync_loop_ok_and_fresh w url hc hu (w.issues pid) _ hdelf
    cases hrec : (sync_issues_loop w url (w.issues pid)
        ((delete_stale_events w url
          ((((alGetD s.server_events url []).map (fun p => p.1)).filter
            (fun u => !(((w.issues pid).map (fun i => issue_uid i.id)).contains u))))
          { s with events_cache :=
              (alSet s.events_cache url (alGetD s.server_events url [])) }).2)).1 with
    | error e =>
      rw [hrec] at hloop
      simp [exOk] at hloop
    | ok n =>
      simp only [hrec]
      rfl

/-- A world for the C2 witness: one due-dated issue for project pw and a
calendar server whose deletes all fail (delete-phase faults only). -/
def c2w_world : World :=
  { noFaultWorld with
    issues := fun pid =>
      if pid == "pw" then
        [⟨"iw", "T", none, 1, none, some ⟨6, 0⟩, none, none, [], [], "pw",
          ⟨0, 0⟩⟩]
      else [],
    deleteEventFail := fun _ _ => true }

/-- A state for the C2 witness holding one stale event on the calendar, so
the delete phase actually attempts (and fails) a deletion. -/
def c2w_sys : Sys :=
  ⟨[], [], [], false, [("calw", [("stale", c1_event)])], []⟩

/-- Witness instantiating the delete-isolation part of amended C2: with
every delete failing and one stale event present, the batch still returns
its count pair instead of raising. -/
theorem c2_counts_delete_isolated_fetch_and_sync_propagate_witness :
    c2w_world.getIssuesFail "pw" = false ∧
    alLookup c2w_sys.events_cache "calw" = none ∧
    c2w_world.getEventsFail "calw" = false ∧
    exOk (sync_project_issues_with_cleanup c2w_world "pw" "calw" c2w_sys).1
      = true :=
  ⟨rfl, rfl, rfl,
   (c2_counts_delete_isolated_fetch_and_sync_propagate c2w_world "pw" "calw"
     c2w_sys).2.2.1 rfl rfl rfl (fun _ => rfl) (fun _ => rfl)⟩
